import Mathlib

/-!
Verification of the Item Service in `server.js`.

The service wires Express route handlers to a MongoDB collection through
Mongoose.  We embed the persistent state (the `items` collection) as a list
of documents together with a fresh-identifier counter, and each route
handler as a pure function from the request data and the storage state to
an HTTP response and the next storage state.  The Mongoose calls the
handlers perform (`save`, `find`, `findByIdAndUpdate`, `findByIdAndDelete`)
are embedded with their casting behaviour for the declared schema
`new mongoose.Schema(\x7b name: String \x7d)`: string values pass through,
`null` is kept, numbers and booleans are cast with `toString`, and plain
objects and arrays raise a `CastError`.  Update objects are cast before the
command is issued, and `undefined` fields of an update are dropped.
Storage-layer failures (connectivity loss and the like) are modelled by an
explicit `fault` argument: `some msg` means the single storage call of the
route raises an error whose `message` is `msg`.
-/

/-- JSON values as delivered by `body-parser` (numbers restricted to
integers, which is all the claims need). -/
inductive Json where
  | null : Json
  | str (s : String) : Json
  | num (n : Int) : Json
  | bool (b : Bool) : Json
  | arr (elems : List Json) : Json
  | obj (fields : List (String × Json)) : Json

/-- Field lookup in a parsed JSON object.  `JSON.parse` keeps the last
occurrence of a duplicated key, so the lookup prefers later fields. -/
def getField (fields : List (String × Json)) (key : String) : Option Json :=
  match fields with
  | [] => none
  | (k, v) :: rest =>
    match getField rest key with
    | some w => some w
    | none => if k = key then some v else none

/-- Lookup of a field of a JSON value (none when the value is not an
object). -/
def jsonField (j : Json) (key : String) : Option Json :=
  match j with
  | .obj fields => getField fields key
  | _ => none

/-- A stored document of the `items` collection: the storage-assigned
identifier and the optional `name` field (`none` = field absent). -/
structure Item where
  id : Nat
  name : Option Json

/-- The storage state: the documents of the `items` collection in insertion
order, and the counter from which fresh identifiers are assigned. -/
structure DB where
  items : List Item
  nextId : Nat

/-- A JSON HTTP response. -/
structure Response where
  status : Nat
  body : Json

/-- Mongoose cast of a value to the schema type `String`
(`SchemaString.cast`): strings pass through, `null` is kept, a value with
its own `toString` (numbers, booleans) is converted, and plain objects and
arrays raise a `CastError`. -/
def castString (j : Json) : Except String Json :=
  match j with
  | .null => .ok .null
  | .str s => .ok (.str s)
  | .num n => .ok (.str (toString n))
  | .bool b => .ok (.str (toString b))
  | .arr _ => .error "Cast to string failed at path name"
  | .obj _ => .error "Cast to string failed at path name"

/-- Cast of the `name` field of a document or update: an absent
(`undefined`) value stays absent, a present value goes through the schema
cast. -/
def castOptName (v : Option Json) : Except String (Option Json) :=
  match v with
  | none => .ok none
  | some j => (castString j).map some

/-- Path identifiers as received by the `/items/:id` routes: either a
well-formed identifier or a malformed string. -/
inductive ReqId where
  | valid (n : Nat) : ReqId
  | malformed (s : String) : ReqId

/-- Mongoose cast of the path identifier to `ObjectId`; a malformed
identifier raises a `CastError`. -/
def castObjectId (rid : ReqId) : Except String Nat :=
  match rid with
  | .valid n => .ok n
  | .malformed s =>
    .error ("Cast to ObjectId failed for value " ++ s ++ " at path _id for model Item")

/-- `new Item(\x7b name: v \x7d).save()`: cast the `name` field, assign the next
fresh identifier, and append the document to the collection. -/
def insertItem (db : DB) (nameVal : Option Json) : Except String (Item × DB) :=
  match castOptName nameVal with
  | .error e => .error e
  | .ok v => .ok (⟨db.nextId, v⟩, ⟨db.items ++ [⟨db.nextId, v⟩], db.nextId + 1⟩)

/-- Replace the document with the given identifier (identifiers are unique
in the collection, so at most the first match is replaced). -/
def replaceById (i : Nat) (it : Item) (xs : List Item) : List Item :=
  match xs with
  | [] => []
  | x :: rest => if x.id == i then it :: rest else x :: replaceById i it rest

/-- Remove the document with the given identifier. -/
def removeById (i : Nat) (xs : List Item) : List Item :=
  match xs with
  | [] => []
  | x :: rest => if x.id == i then rest else x :: removeById i rest

/-- `Item.findByIdAndUpdate(id, \x7b name: v \x7d, \x7b new: true \x7d)`: cast the
identifier and the update (both casts happen before the command is issued,
and an `undefined` name is dropped from the update), then atomically find
the document and apply the update, returning the updated document, or
`none` when no document has the identifier. -/
def findByIdAndUpdate (db : DB) (rid : ReqId) (nameVal : Option Json) :
    Except String (Option Item × DB) :=
  match castObjectId rid with
  | .error e => .error e
  | .ok i =>
    match castOptName nameVal with
    | .error e => .error e
    | .ok v =>
      match db.items.find? (fun it => it.id == i) with
      | none => .ok (none, db)
      | some it =>
        match v with
        | none => .ok (some it, db)
        | some nv =>
          .ok (some ⟨it.id, some nv⟩, ⟨replaceById i ⟨it.id, some nv⟩ db.items, db.nextId⟩)

/-- `Item.findByIdAndDelete(id)`: cast the identifier, then remove and
return the document, or return `none` when no document has the
identifier. -/
def findByIdAndDelete (db : DB) (rid : ReqId) : Except String (Option Item × DB) :=
  match castObjectId rid with
  | .error e => .error e
  | .ok i =>
    match db.items.find? (fun it => it.id == i) with
    | none => .ok (none, db)
    | some it => .ok (some it, ⟨removeById i db.items, db.nextId⟩)

/-- Serialization of a stored document in a JSON response: the identifier
and, when present, the `name` field. -/
def itemToJson (it : Item) : Json :=
  .obj (("id", .num (it.id : Int)) ::
    (match it.name with
     | none => []
     | some v => [("name", v)]))

/-- The 500 response built by the `catch` block of every route:
`res.status(500).json(\x7b error: error.message \x7d)`. -/
def errorResponse (msg : String) : Response :=
  ⟨500, .obj [("error", .str msg)]⟩

/-- The `POST /items` handler after extracting `req.body.name`. -/
def postWithName (db : DB) (nameVal : Option Json) (fault : Option String) :
    Response × DB :=
  match fault with
  | some msg => (errorResponse msg, db)
  | none =>
    match insertItem db nameVal with
    | .error msg => (errorResponse msg, db)
    | .ok (it, db') =>
      (⟨201, .obj [("message", .str "Item created"), ("item", itemToJson it)]⟩, db')

/-- `POST /items`: build a document from `req.body.name` only, save it, and
answer 201 with the created document (500 on a storage error). -/
def postItems (db : DB) (body : List (String × Json)) (fault : Option String) :
    Response × DB :=
  postWithName db (getField body "name") fault

/-- `GET /items`: return all documents of the collection in storage order
(500 on a storage error). -/
def getItemsHandler (db : DB) (fault : Option String) : Response × DB :=
  match fault with
  | some msg => (errorResponse msg, db)
  | none => (⟨200, .arr (db.items.map itemToJson)⟩, db)

/-- `PUT /items/:id`: update the `name` of the addressed document and
answer 200 with the updated document, 404 when the identifier has no
document, 500 on a storage error (malformed identifier included). -/
def putItems (db : DB) (rid : ReqId) (body : List (String × Json))
    (fault : Option String) : Response × DB :=
  match fault with
  | some msg => (errorResponse msg, db)
  | none =>
    match findByIdAndUpdate db rid (getField body "name") with
    | .error msg => (errorResponse msg, db)
    | .ok (none, db') => (⟨404, .obj [("message", .str "Item not found")]⟩, db')
    | .ok (some it, db') =>
      (⟨200, .obj [("message", .str "Item updated"), ("item", itemToJson it)]⟩, db')

/-- `DELETE /items/:id`: remove the addressed document and answer 200, 404
when the identifier has no document, 500 on a storage error (malformed
identifier included). -/
def deleteItems (db : DB) (rid : ReqId) (fault : Option String) : Response × DB :=
  match fault with
  | some msg => (errorResponse msg, db)
  | none =>
    match findByIdAndDelete db rid with
    | .error msg => (errorResponse msg, db)
    | .ok (none, db') => (⟨404, .obj [("message", .str "Item not found")]⟩, db')
    | .ok (some _, db') => (⟨200, .obj [("message", .str "Item deleted")]⟩, db')

/-- `GET /fast`: answer 200 with a static message and the current clock
reading (`Date.now()`), passed in as `now`. -/
def fastHandler (now : Int) : Response :=
  ⟨200, .obj [("message", .str "Fast API Response"), ("timestamp", .num now)]⟩

/-- The numeric `timestamp` field of a response body, when present. -/
def timestampOf (r : Response) : Option Int :=
  match jsonField r.body "timestamp" with
  | some (.num t) => some t
  | _ => none

/-- The identifier of the created document reported by a `POST /items`
response, when present. -/
def createdId (r : Response) : Option Int :=
  match jsonField r.body "item" with
  | some itemJson =>
    match jsonField itemJson "id" with
    | some (.num n) => some n
    | _ => none
  | none => none

/-- A plain-text HTTP response, as produced by the `/metrics` route. -/
structure TextResponse where
  status : Nat
  contentType : String
  body : String

/-- The content type of the prom-client registry
(`client.register.contentType`). -/
def promContentType : String := "text/plain; version=0.0.4; charset=utf-8"

/-- `client.register.metrics()`: the exposition texts of the registered
metrics, joined; the empty registry yields the empty string. -/
def registryMetrics (registered : List String) : String :=
  String.intercalate "\n" registered

/-- The metric expositions registered by `server.js`: none — the file
imports prom-client but never registers a metric (in particular it never
calls `collectDefaultMetrics`). -/
def serverRegistry : List String := []

/-- `GET /metrics`: set the registry content type and end the response with
the exposition text of the registry (status 200, the Express default). -/
def metricsHandler (registered : List String) : TextResponse :=
  ⟨200, promContentType, registryMetrics registered⟩

/-! ### Helper lemmas about freshly appended documents -/

/-- A freshly appended document is the one found when searching for its
identifier, because every earlier document has a strictly smaller
identifier. -/
theorem find?_append_fresh (xs : List Item) (n : Nat) (v : Option Json)
    (h : ∀ it ∈ xs, it.id < n) :
    (xs ++ [(⟨n, v⟩ : Item)]).find? (fun it => it.id == n) = some ⟨n, v⟩ := by
  induction xs with
  | nil => simp
  | cons x rest ih =>
    have hx : x.id ≠ n := Nat.ne_of_lt (h x (List.mem_cons_self x rest))
    rw [List.cons_append, List.find?_cons_of_neg]
    · exact ih fun it hit => h it (List.mem_cons_of_mem x hit)
    · simp [hx]

/-- Removing a freshly appended document restores the previous collection,
because every earlier document has a strictly smaller identifier. -/
theorem removeById_append_fresh (xs : List Item) (n : Nat) (v : Option Json)
    (h : ∀ it ∈ xs, it.id < n) :
    removeById n (xs ++ [(⟨n, v⟩ : Item)]) = xs := by
  induction xs with
  | nil => simp [removeById]
  | cons x rest ih =>
    have hx : x.id ≠ n := Nat.ne_of_lt (h x (List.mem_cons_self x rest))
    simp only [List.cons_append, removeById]
    rw [if_neg (by simp [hx])]
    exact congrArg (x :: ·) (ih fun it hit => h it (List.mem_cons_of_mem x hit))

/-! ### Claims -/

/-- Claim C1: starting from an empty collection, POST /items with name "a"
returns 201 with the created item (fresh identifier 0, name "a"); PUT on
that identifier with name "b" returns 200 with the updated item; GET /items
then returns exactly that one item; DELETE on the identifier returns 200;
and a final GET /items returns the empty array. -/
theorem C1_crud_scenario :
    postItems ⟨[], 0⟩ [("name", .str "a")] none =
      (⟨201, .obj [("message", .str "Item created"),
                   ("item", .obj [("id", .num 0), ("name", .str "a")])]⟩,
       ⟨[⟨0, some (.str "a")⟩], 1⟩) ∧
    putItems ⟨[⟨0, some (.str "a")⟩], 1⟩ (.valid 0) [("name", .str "b")] none =
      (⟨200, .obj [("message", .str "Item updated"),
                   ("item", .obj [("id", .num 0), ("name", .str "b")])]⟩,
       ⟨[⟨0, some (.str "b")⟩], 1⟩) ∧
    getItemsHandler ⟨[⟨0, some (.str "b")⟩], 1⟩ none =
      (⟨200, .arr [.obj [("id", .num 0), ("name", .str "b")]]⟩,
       ⟨[⟨0, some (.str "b")⟩], 1⟩) ∧
    deleteItems ⟨[⟨0, some (.str "b")⟩], 1⟩ (.valid 0) none =
      (⟨200, .obj [("message", .str "Item deleted")]⟩, ⟨[], 1⟩) ∧
    getItemsHandler ⟨[], 1⟩ none = (⟨200, .arr []⟩, ⟨[], 1⟩) :=
  ⟨rfl, rfl, rfl, rfl, rfl⟩

/-- Claim C2 (counterexample): PUT on a well-formed identifier that has no
document does not return 404 for every JSON body — a body whose name field
is a plain object fails the update cast before the command is issued and
yields 500 (the collection is still unchanged). -/
theorem C2_put_missing_counterexample :
    (putItems ⟨[], 0⟩ (.valid 0) [("name", .obj [])] none).1.status = 500 ∧
    (putItems ⟨[], 0⟩ (.valid 0) [("name", .obj [])] none).1.status ≠ 404 ∧
    (putItems ⟨[], 0⟩ (.valid 0) [("name", .obj [])] none).2.items = [] :=
  ⟨rfl, by decide, rfl⟩

/-- Claim C2 (amended): for every well-formed identifier with no
corresponding document, PUT /items/:id with a JSON body whose name field
the schema can cast (absent, null, string, number or boolean) returns 404
with a message body and leaves the storage state unchanged. -/
theorem C2_put_missing_404 (db : DB) (i : Nat) (body : List (String × Json))
    (v : Option Json)
    (hcast : castOptName (getField body "name") = .ok v)
    (hfind : db.items.find? (fun it => it.id == i) = none) :
    putItems db (.valid i) body none =
      (⟨404, .obj [("message", .str "Item not found")]⟩, db) := by
  simp [putItems, findByIdAndUpdate, castObjectId, hcast, hfind]

/-- Claim C2 witness: the amended statement at the empty collection,
identifier 0 and the empty body. -/
theorem C2_put_missing_404_witness :
    castOptName (getField [] "name") = .ok none ∧
    ([] : List Item).find? (fun it => it.id == 0) = none ∧
    putItems ⟨[], 0⟩ (.valid 0) [] none =
      (⟨404, .obj [("message", .str "Item not found")]⟩, ⟨[], 0⟩) :=
  ⟨rfl, rfl, C2_put_missing_404 ⟨[], 0⟩ 0 [] none rfl rfl⟩

/-- Claim C3: for every well-formed identifier with no corresponding
document, DELETE /items/:id returns 404 with a message body and leaves the
storage state unchanged. -/
theorem C3_delete_missing_404 (db : DB) (i : Nat)
    (hfind : db.items.find? (fun it => it.id == i) = none) :
    deleteItems db (.valid i) none =
      (⟨404, .obj [("message", .str "Item not found")]⟩, db) := by
  simp [deleteItems, findByIdAndDelete, castObjectId, hfind]

/-- Claim C3 witness: the statement at the empty collection and
identifier 0. -/
theorem C3_delete_missing_404_witness :
    ([] : List Item).find? (fun it => it.id == 0) = none ∧
    deleteItems ⟨[], 0⟩ (.valid 0) none =
      (⟨404, .obj [("message", .str "Item not found")]⟩, ⟨[], 0⟩) :=
  ⟨rfl, C3_delete_missing_404 ⟨[], 0⟩ 0 rfl⟩

/-- Claim C4: whenever the single storage call of an items route raises an
error — an injected storage fault on any of the four routes, a malformed
identifier on PUT or DELETE, or a failing name cast on POST — the handler
catches it and responds 500 with a JSON body carrying the text message of
the error, and the storage state is unchanged (no retry, no further
storage operation). -/
theorem C4_storage_error_500 (db : DB) (body : List (String × Json))
    (rid : ReqId) (s msg : String) (fs : List (String × Json)) :
    postItems db body (some msg) = (errorResponse msg, db) ∧
    getItemsHandler db (some msg) = (errorResponse msg, db) ∧
    putItems db rid body (some msg) = (errorResponse msg, db) ∧
    deleteItems db rid (some msg) = (errorResponse msg, db) ∧
    putItems db (.malformed s) body none =
      (errorResponse ("Cast to ObjectId failed for value " ++ s ++
        " at path _id for model Item"), db) ∧
    deleteItems db (.malformed s) none =
      (errorResponse ("Cast to ObjectId failed for value " ++ s ++
        " at path _id for model Item"), db) ∧
    postItems db [("name", .obj fs)] none =
      (errorResponse "Cast to string failed at path name", db) :=
  ⟨rfl, rfl, rfl, rfl, rfl, rfl, rfl⟩

/-- Claim C5: from any storage state whose documents all carry identifiers
below the fresh-identifier counter (every state the storage layer can
produce), a successful POST /items followed by DELETE /items/:id on the
identifier reported by the creation answers 200 and restores the
collection to its prior contents; in particular the empty collection stays
empty. -/
theorem C5_post_then_delete (db : DB) (body : List (String × Json))
    (hinv : ∀ it ∈ db.items, it.id < db.nextId)
    (resp : Response) (db' : DB)
    (hpost : postItems db body none = (resp, db'))
    (h201 : resp.status = 201) :
    createdId resp = some (db.nextId : Int) ∧
    (deleteItems db' (.valid db.nextId) none).1.status = 200 ∧
    (deleteItems db' (.valid db.nextId) none).2.items = db.items := by
  cases hc : castOptName (getField body "name") with
  | error e =>
    simp only [postItems, postWithName, insertItem, hc] at hpost
    injection hpost with h1 h2
    rw [← h1] at h201
    simp [errorResponse] at h201
  | ok v =>
    simp only [postItems, postWithName, insertItem, hc] at hpost
    injection hpost with h1 h2
    subst h1
    subst h2
    refine ⟨?_, ?_, ?_⟩
    · cases v <;> rfl
    · simp only [deleteItems, findByIdAndDelete, castObjectId]
      rw [find?_append_fresh db.items db.nextId v hinv]
    · simp only [deleteItems, findByIdAndDelete, castObjectId]
      rw [find?_append_fresh db.items db.nextId v hinv]
      simp only []
      exact removeById_append_fresh db.items db.nextId v hinv

/-- Claim C5 witness: the statement at the empty collection and the body
with name "a". -/
theorem C5_post_then_delete_witness :
    (∀ it ∈ ([] : List Item), it.id < 0) ∧
    postItems ⟨[], 0⟩ [("name", .str "a")] none =
      (⟨201, .obj [("message", .str "Item created"),
                   ("item", .obj [("id", .num 0), ("name", .str "a")])]⟩,
       ⟨[⟨0, some (.str "a")⟩], 1⟩) ∧
    createdId ⟨201, .obj [("message", .str "Item created"),
                          ("item", .obj [("id", .num 0), ("name", .str "a")])]⟩ = some 0 ∧
    (deleteItems ⟨[⟨0, some (.str "a")⟩], 1⟩ (.valid 0) none).1.status = 200 ∧
    (deleteItems ⟨[⟨0, some (.str "a")⟩], 1⟩ (.valid 0) none).2.items = [] :=
  ⟨by simp, rfl,
   (C5_post_then_delete ⟨[], 0⟩ [("name", .str "a")] (by simp) _ _ rfl rfl).1,
   (C5_post_then_delete ⟨[], 0⟩ [("name", .str "a")] (by simp) _ _ rfl rfl).2.1,
   (C5_post_then_delete ⟨[], 0⟩ [("name", .str "a")] (by simp) _ _ rfl rfl).2.2⟩

/-- Claim C6 (counterexample): the timestamp of GET /fast is the current
clock reading, so two successive calls within the same millisecond (equal
clock readings, here both 0) return equal timestamps — the later one is
not strictly greater. -/
theorem C6_fast_counterexample :
    ¬ ∀ t1 t2 : Int, t1 ≤ t2 →
        ∃ a b : Int, timestampOf (fastHandler t1) = some a ∧
          timestampOf (fastHandler t2) = some b ∧ a < b := by
  intro h
  obtain ⟨a, b, ha, hb, hab⟩ := h 0 0 le_rfl
  rw [show timestampOf (fastHandler 0) = some (0 : Int) from rfl] at ha hb
  injection ha with ha
  injection hb with hb
  omega

/-- Claim C6 (amended): every call to GET /fast returns 200 with a JSON
body carrying the static message and a numeric timestamp equal to the
current clock reading; timestamps of successive calls are strictly
increasing whenever the clock strictly advances between the calls. -/
theorem C6_fast_ok_and_clock (t1 t2 : Int) (h : t1 < t2) :
    (fastHandler t1).status = 200 ∧
    jsonField (fastHandler t1).body "message" = some (.str "Fast API Response") ∧
    timestampOf (fastHandler t1) = some t1 ∧
    timestampOf (fastHandler t2) = some t2 ∧
    ∀ a b : Int, timestampOf (fastHandler t1) = some a →
      timestampOf (fastHandler t2) = some b → a < b := by
  refine ⟨rfl, rfl, rfl, rfl, ?_⟩
  intro a b ha hb
  rw [show timestampOf (fastHandler t1) = some t1 from rfl] at ha
  rw [show timestampOf (fastHandler t2) = some t2 from rfl] at hb
  injection ha with ha
  injection hb with hb
  omega

/-- Claim C6 witness: the amended statement at clock readings 0 and 1. -/
theorem C6_fast_ok_and_clock_witness :
    (0 : Int) < 1 ∧ (fastHandler 0).status = 200 ∧
    timestampOf (fastHandler 0) = some 0 ∧ timestampOf (fastHandler 1) = some 1 :=
  ⟨by decide, (C6_fast_ok_and_clock 0 1 (by decide)).1,
   (C6_fast_ok_and_clock 0 1 (by decide)).2.2.1,
   (C6_fast_ok_and_clock 0 1 (by decide)).2.2.2.1⟩

/-- Claim C7 (counterexample): POST /items does not store every name value
as-is — a numeric name 5 is cast by the schema to the string "5", and an
object name is rejected with 500. -/
theorem C7_name_cast_counterexample :
    (postItems ⟨[], 0⟩ [("name", .num 5)] none).2.items = [⟨0, some (.str "5")⟩] ∧
    Json.str "5" ≠ Json.num 5 ∧
    (postItems ⟨[], 0⟩ [("name", .obj [])] none).1.status = 500 :=
  ⟨rfl, by simp, rfl⟩

/-- Claim C7 (amended): POST /items stores a string name as-is and a null
name as null, keeps an absent name absent, casts a numeric or boolean name
to its text form, and rejects an object or array name with 500, leaving
the storage state unchanged. -/
theorem C7_name_cast_behaviour (db : DB) (s : String) (n : Int) (b : Bool)
    (xs : List Json) (fs : List (String × Json)) :
    postItems db [("name", .str s)] none =
      (⟨201, .obj [("message", .str "Item created"),
                   ("item", itemToJson ⟨db.nextId, some (.str s)⟩)]⟩,
       ⟨db.items ++ [⟨db.nextId, some (.str s)⟩], db.nextId + 1⟩) ∧
    (postItems db [("name", .null)] none).2.items =
      db.items ++ [⟨db.nextId, some .null⟩] ∧
    (postItems db [] none).2.items = db.items ++ [⟨db.nextId, none⟩] ∧
    (postItems db [("name", .num n)] none).2.items =
      db.items ++ [⟨db.nextId, some (.str (toString n))⟩] ∧
    (postItems db [("name", .bool b)] none).2.items =
      db.items ++ [⟨db.nextId, some (.str (toString b))⟩] ∧
    postItems db [("name", .arr xs)] none =
      (errorResponse "Cast to string failed at path name", db) ∧
    postItems db [("name", .obj fs)] none =
      (errorResponse "Cast to string failed at path name", db) :=
  ⟨rfl, rfl, rfl, rfl, rfl, rfl, rfl⟩

/-- Claim C8 (counterexample): GET /metrics answers 200, but its body is
the empty string — `server.js` registers no metric (it never calls
`collectDefaultMetrics`), so the registry exposition is empty, not
non-empty. -/
theorem C8_metrics_counterexample :
    (metricsHandler serverRegistry).status = 200 ∧
    (metricsHandler serverRegistry).body = "" ∧
    ¬ (metricsHandler serverRegistry).body ≠ "" :=
  ⟨rfl, rfl, fun h => h rfl⟩

/-- Claim C8 (amended): every call to GET /metrics, the first one included,
returns 200 with the registry content type and the exposition text of the
registry; since `server.js` never registers any metric, that text is the
empty string on every call. -/
theorem C8_metrics_empty_exposition :
    metricsHandler serverRegistry = ⟨200, promContentType, ""⟩ :=
  rfl

/-- Claim C9: a PUT /items/:id request whose JSON body omits the name field
leaves the whole storage state unchanged (the undefined update field is
dropped rather than clearing the name) and answers 200 with the unchanged
document. -/
theorem C9_put_absent_name_noop (db : DB) (i : Nat)
    (body : List (String × Json)) (it : Item)
    (hname : getField body "name" = none)
    (hfind : db.items.find? (fun x => x.id == i) = some it) :
    putItems db (.valid i) body none =
      (⟨200, .obj [("message", .str "Item updated"), ("item", itemToJson it)]⟩, db) := by
  simp [putItems, findByIdAndUpdate, castObjectId, castOptName, hname, hfind]

/-- Claim C9 witness: the statement at a one-document collection and the
empty body. -/
theorem C9_put_absent_name_noop_witness :
    getField ([] : List (String × Json)) "name" = none ∧
    [(⟨0, some (.str "a")⟩ : Item)].find? (fun x => x.id == 0) =
      some ⟨0, some (.str "a")⟩ ∧
    putItems ⟨[⟨0, some (.str "a")⟩], 1⟩ (.valid 0) [] none =
      (⟨200, .obj [("message", .str "Item updated"),
                   ("item", .obj [("id", .num 0), ("name", .str "a")])]⟩,
       ⟨[⟨0, some (.str "a")⟩], 1⟩) :=
  ⟨rfl, rfl,
   C9_put_absent_name_noop ⟨[⟨0, some (.str "a")⟩], 1⟩ 0 [] ⟨0, some (.str "a")⟩ rfl rfl⟩

/-- Claim C10: the outcome of POST /items depends only on the name field of
the request body — two bodies agreeing on name produce identical responses
and identical storage states, so every other body field is ignored and
never persisted. -/
theorem C10_post_only_name (db : DB) (b1 b2 : List (String × Json))
    (fault : Option String)
    (h : getField b1 "name" = getField b2 "name") :
    postItems db b1 fault = postItems db b2 fault := by
  unfold postItems
  rw [h]

/-- Claim C10 witness: the statement at the empty collection, a body with
an extra field, and the same body without it. -/
theorem C10_post_only_name_witness :
    getField [("name", Json.str "a"), ("extra", Json.num 1)] "name" =
      getField [("name", Json.str "a")] "name" ∧
    postItems ⟨[], 0⟩ [("name", Json.str "a"), ("extra", Json.num 1)] none =
      postItems ⟨[], 0⟩ [("name", Json.str "a")] none :=
  ⟨rfl, C10_post_only_name ⟨[], 0⟩ _ _ none rfl⟩
